import Mathlib

/-!
# Verification of the website-analyzer "analyze" pipeline

Shallow embedding of the multi-source website analysis pipeline of
`lib/analyze.mjs` (the core selected by the specification), together with the
failure wrapper `server/analysis/safeAnalyze.js`.

Modelling conventions:
* Network and browser effects are represented by an explicit environment
  (`Env`) that records the outcome of every external call (primary fetch,
  robots/sitemap fetches, headless-browser launch and navigation, lighthouse
  run, metascraper result, the clock).  The pipeline is then a pure function
  of that environment, and `AnalyzeOutcome` additionally records the
  observable effect trace the claims talk about (URL passed to the primary
  fetch, whether the headless browser was launched).
* HTML documents are parsed by an executable model of the `cheerio` parser
  over a simplified HTML/XML grammar (tags, double-quoted attributes, text;
  void elements in HTML mode).  All selector and text computations used by
  the source are translated faithfully on the resulting tree.
* JavaScript strings are Lean `String`s; the inputs exercised are ASCII, so
  `String.length`, `String.toLower` and whitespace handling agree with the
  JavaScript semantics.
* Exceptions that can escape `analyzeWebsite` are the values of `JsError`;
  `Except` models promise rejection.
-/

/-! ## String utilities (JavaScript semantics on ASCII strings) -/

/-- Character-list prefix test: `takesLead pat l` is true iff `pat` is a
prefix of `l`. -/
def takesLead : List Char → List Char → Bool
  | [], _ => true
  | _ :: _, [] => false
  | c :: cs, d :: ds => c = d && takesLead cs ds

/-- Predicate `containsAux pat l`: some suffix of `l` starts with `pat`
(substring test on character lists). -/
def containsAux (pat : List Char) : List Char → Bool
  | [] => takesLead pat []
  | c :: cs => takesLead pat (c :: cs) || containsAux pat cs

/-- JavaScript `String.prototype.includes` (substring test). -/
def strContains (s pat : String) : Bool := containsAux pat.data s.data

/-- JavaScript `String.prototype.startsWith`. -/
def jsStartsWith (s pat : String) : Bool := takesLead pat.data s.data

/-- Lowercase one ASCII character (`String.prototype.toLowerCase` acts
characterwise on the ASCII inputs exercised here). -/
def lowerChar (c : Char) : Char :=
  if 'A' ≤ c && c ≤ 'Z' then Char.ofNat (c.toNat + 32) else c

/-- JavaScript `String.prototype.toLowerCase` (ASCII). -/
def toLowerStr (s : String) : String := String.mk (s.data.map lowerChar)

/-- Split a character list at every character satisfying `p` (the resulting
list is non-empty; delimiters are dropped). -/
def splitChars (p : Char → Bool) : List Char → List (List Char)
  | [] => [[]]
  | c :: cs =>
    match splitChars p cs with
    | [] => if p c then [[], []] else [[c]]
    | t :: ts => if p c then [] :: t :: ts else (c :: t) :: ts

/-- Split a string at every character satisfying `p`. -/
def splitStr (s : String) (p : Char → Bool) : List String :=
  (splitChars p s.data).map String.mk


/-- JavaScript `\s` whitespace class (ASCII part). -/
def isWsChar (c : Char) : Bool :=
  c = ' ' || c = '\t' || c = '\n' || c = '\r' || c = '\x0b' || c = '\x0c'

/-- JavaScript `String.prototype.trim` (ASCII whitespace). -/
def jsTrim (s : String) : String :=
  String.mk (((s.data.dropWhile fun c => isWsChar c).reverse.dropWhile
    fun c => isWsChar c).reverse)

/-- Model of `split(/\s+/).filter(Boolean)`: maximal non-whitespace runs of a string. -/
def wsTokens (s : String) : List String :=
  (splitStr s (fun c => isWsChar c)).filter (fun t => t ≠ "")

/-- Helper for `collapseWs`: the flag records whether the previous character
belonged to a whitespace run that has already emitted its space. -/
def collapseWsAux : Bool → List Char → List Char
  | _, [] => []
  | prevWs, c :: cs =>
    if isWsChar c then
      if prevWs then collapseWsAux true cs else ' ' :: collapseWsAux true cs
    else c :: collapseWsAux false cs

/-- Model of `replace(/\s+/g, ' ')`: collapse every whitespace run to a single space. -/
def collapseWs (s : String) : String := String.mk (collapseWsAux false s.data)

/-- Model of `split(/\r?\n/)` followed by per-line processing; since every use site
trims each line afterwards, splitting on `'\n'` is an equivalent model (a
trailing `'\r'` is whitespace and is removed by the trim). -/
def splitLines (s : String) : List String := splitStr s (fun c => c = '\n')

/-- Case-insensitive prefix test used for `/^disallow:/i` on ASCII lines. -/
def startsWithCI (pat s : String) : Bool :=
  takesLead (toLowerStr pat).data (toLowerStr s).data

/-- The regex `/:\s*\/\s*$/` of `fetchRobotsInfo`: reading from the end of the
string, optional whitespace, a `'/'`, optional whitespace, then a `':'`. -/
def rootDisallowPattern (d : String) : Bool :=
  match (d.data.reverse.dropWhile fun c => isWsChar c) with
  | '/' :: rest =>
    match rest.dropWhile (fun c => isWsChar c) with
    | ':' :: _ => true
    | _ => false
  | _ => false

/-! ## HTML document model and parser (model of `cheerio.load`) -/

mutual
/-- A node of the parsed document tree. -/
inductive HNode where
  | elem (tag : String) (attrs : List (String × String)) (children : HForest)
  | textNode (s : String)
deriving DecidableEq, Repr
/-- A sequence of sibling nodes.  (A separate mutual inductive is used instead
of `List HNode` so that all tree recursions are structural.) -/
inductive HForest where
  | nil
  | cons (n : HNode) (ns : HForest)
deriving DecidableEq, Repr
end

/-- Convert a list of nodes to a forest. -/
def ofList : List HNode → HForest
  | [] => .nil
  | n :: ns => .cons n (ofList ns)

/-- Tokens produced by the HTML lexer. -/
inductive HTok where
  | openTag (tag : String) (attrs : List (String × String)) (selfClose : Bool)
  | closeTag (tag : String)
  | textTok (s : String)
deriving DecidableEq, Repr

/-- Attribute-name character (stops at whitespace, `=`, `/`, `>`). -/
def isAttrNameChar (c : Char) : Bool :=
  !(isWsChar c) && c ≠ '=' && c ≠ '/' && c ≠ '>'

/-- Parse the attribute section inside a tag.  Supports `name="value"` and
bare `name` attributes (the forms occurring in the analyzed documents).
`fuel` bounds the iteration count; the input length always suffices. -/
def parseAttrsF : Nat → List Char → List (String × String)
  | 0, _ => []
  | fuel + 1, cs =>
    let cs := cs.dropWhile (fun c => isWsChar c)
    match cs with
    | [] => []
    | '/' :: rest => parseAttrsF fuel rest
    | _ =>
      let name := cs.takeWhile (fun c => isAttrNameChar c)
      let rest := cs.dropWhile (fun c => isAttrNameChar c)
      if name.isEmpty then parseAttrsF fuel rest.tail
      else
        match rest with
        | '=' :: '"' :: r2 =>
          let v := r2.takeWhile (fun c => c ≠ '"')
          (String.mk name, String.mk v) ::
            parseAttrsF fuel ((r2.dropWhile (fun c => c ≠ '"')).drop 1)
        | '=' :: r2 =>
          let v := r2.takeWhile (fun c => !(isWsChar c))
          (String.mk name, String.mk v) ::
            parseAttrsF fuel (r2.dropWhile (fun c => !(isWsChar c)))
        | _ => (String.mk name, "") :: parseAttrsF fuel rest

/-- Lex an HTML string into tags and text runs.  `fuel` bounds the iteration
count; the input length always suffices (each step consumes at least one
character). -/
def lexHtmlF : Nat → List Char → List HTok
  | 0, _ => []
  | _ + 1, [] => []
  | fuel + 1, '<' :: '/' :: rest =>
    let name := rest.takeWhile (fun c => c ≠ '>')
    let rest' := (rest.dropWhile (fun c => c ≠ '>')).drop 1
    .closeTag (String.mk (name.filter (fun c => !(isWsChar c)))) :: lexHtmlF fuel rest'
  | fuel + 1, '<' :: rest =>
    let inside := rest.takeWhile (fun c => c ≠ '>')
    let rest' := (rest.dropWhile (fun c => c ≠ '>')).drop 1
    let tag := inside.takeWhile (fun c => isAttrNameChar c)
    let attrSec := inside.dropWhile (fun c => isAttrNameChar c)
    let selfClose := inside.getLast? = some '/'
    .openTag (String.mk tag) (parseAttrsF (attrSec.length + 1) attrSec) selfClose ::
      lexHtmlF fuel rest'
  | fuel + 1, c :: rest =>
    let txt := (c :: rest).takeWhile (fun d => d ≠ '<')
    let rest' := (c :: rest).dropWhile (fun d => d ≠ '<')
    .textTok (String.mk txt) :: lexHtmlF fuel rest'

/-- HTML void elements (self-contained even without `/>`). -/
def voidTag (t : String) : Bool :=
  t = "area" || t = "base" || t = "br" || t = "col" || t = "embed" ||
  t = "hr" || t = "img" || t = "input" || t = "link" || t = "meta" ||
  t = "param" || t = "source" || t = "track" || t = "wbr"

/-- An open element awaiting its closing tag; `children` is accumulated in
reverse order. -/
structure BFrame where
  tag : String
  attrs : List (String × String)
  children : List HNode
deriving Repr

/-- Close a frame into an element node. -/
def closeFrame (f : BFrame) : HNode := .elem f.tag f.attrs (ofList f.children.reverse)

/-- Attach a completed node to the innermost open frame (or to the top-level
accumulator when no frame is open; the accumulator is kept reversed). -/
def addChild (stack : List BFrame) (acc : List HNode) (n : HNode) :
    List BFrame × List HNode :=
  match stack with
  | [] => ([], n :: acc)
  | f :: fs => ({ f with children := n :: f.children } :: fs, acc)

/-- Close the innermost frame `f` into its parent, repeatedly, until the
stack is exhausted (used at end of input). -/
def drainStack (acc : List HNode) : BFrame → List BFrame → List HNode
  | f, [] => (closeFrame f :: acc).reverse
  | f, g :: gs => drainStack acc { g with children := closeFrame f :: g.children } gs

/-- Close all frames remaining at end of input. -/
def finalizeStack (stack : List BFrame) (acc : List HNode) : List HNode :=
  match stack with
  | [] => acc.reverse
  | f :: fs => drainStack acc f fs

/-- Build the document tree from the token stream with an explicit stack of
open elements.  A close tag is honored when it matches the innermost open
element and ignored otherwise. -/
def buildF (xmlMode : Bool) : List HTok → List BFrame → List HNode → List HNode
  | [], stack, acc => finalizeStack stack acc
  | .textTok s :: rest, stack, acc =>
    let (stack', acc') := addChild stack acc (.textNode s)
    buildF xmlMode rest stack' acc'
  | .openTag tag attrs sc :: rest, stack, acc =>
    if sc || (!xmlMode && voidTag tag) then
      let (stack', acc') := addChild stack acc (.elem tag attrs .nil)
      buildF xmlMode rest stack' acc'
    else
      buildF xmlMode rest (⟨tag, attrs, []⟩ :: stack) acc
  | .closeTag tag :: rest, stack, acc =>
    match stack with
    | [] => buildF xmlMode rest [] acc
    | f :: fs =>
      if f.tag = tag then
        let (stack', acc') := addChild fs acc (closeFrame f)
        buildF xmlMode rest stack' acc'
      else
        buildF xmlMode rest (f :: fs) acc

/-- Model of `cheerio.load` (and of `cheerio.load` with `xmlMode: true`):
parse a document string into a forest of nodes. -/
def parseHtml (xmlMode : Bool) (s : String) : HForest :=
  ofList (buildF xmlMode (lexHtmlF (s.data.length + 1) s.data) [] [])

/-! ## Selector and text primitives (model of the cheerio API) -/

mutual
/-- Text content (`.text()`) of a node: concatenated descendant text. -/
def nodeText : HNode → String
  | .textNode s => s
  | .elem _ _ cs => forestText cs
/-- Concatenated text of a forest. -/
def forestText : HForest → String
  | .nil => ""
  | .cons n ns => nodeText n ++ forestText ns
end

mutual
/-- Collect, in document (pre-)order, the element nodes satisfying a
predicate on tag name and attribute list. -/
def nodeCollect (p : String → List (String × String) → Bool) : HNode → List HNode
  | .textNode _ => []
  | .elem tg a cs => (if p tg a then [HNode.elem tg a cs] else []) ++ forestCollect p cs
/-- Collection (`nodeCollect`) over every node of a forest. -/
def forestCollect (p : String → List (String × String) → Bool) : HForest → List HNode
  | .nil => []
  | .cons n ns => nodeCollect p n ++ forestCollect p ns
end

/-- Attribute lookup on an attribute list (first occurrence, as in the DOM). -/
def attrLookup (attrs : List (String × String)) (name : String) : Option String :=
  (attrs.find? (fun a => a.1 = name)).map (fun a => a.2)

/-- Attribute read (`.attr(name)`) on an element node. -/
def elemAttr (n : HNode) (name : String) : Option String :=
  match n with
  | .elem _ attrs _ => attrLookup attrs name
  | .textNode _ => none

/-- Attribute equality selector `[name="value"]`. -/
def attrIs (attrs : List (String × String)) (name value : String) : Bool :=
  attrLookup attrs name = some value

/-- Attribute substring selector `[name*="pat"]`. -/
def attrHas (attrs : List (String × String)) (name pat : String) : Bool :=
  match attrLookup attrs name with
  | some v => strContains v pat
  | none => false

/-- Elements with a given tag name, in document order. -/
def elemsTagged (t : String) (doc : HForest) : List HNode :=
  forestCollect (fun tg _ => tg = t) doc

/-- Model of `$(sel).text()`: concatenated text of all selected elements. -/
def textOfAll (t : String) (doc : HForest) : String :=
  String.join ((elemsTagged t doc).map nodeText)

/-- Model of `$(sel).attr(name)`: attribute of the first selected element
(`undefined` when the selection is empty → `none`). -/
def firstAttr (p : String → List (String × String) → Bool) (name : String)
    (doc : HForest) : Option String :=
  (forestCollect p doc).head?.bind (fun n => elemAttr n name)

/-- JavaScript `x || null` on an optional string (an empty string is falsy). -/
def jsStrOrNull (o : Option String) : Option String :=
  match o with
  | some s => if s = "" then none else some s
  | none => none

/-! ## Fetcher (`safeFetch`, analyze.mjs lines 24–36) -/

/-- Outcome of one network fetch attempt, as observed by `safeFetch`:
whether the `fetch` promise itself rejected (network error or abort on
timeout), the HTTP status, the body text, and whether reading the body
(`res.text()`) rejected. -/
structure FetchSpec where
  netError : Bool
  status : Nat
  body : String
  bodyReadError : Bool
deriving DecidableEq, Repr

/-- Model of `res.ok`: status in the range 200–299. -/
def resOk (status : Nat) : Bool := 200 ≤ status && status < 300

/-- The `try` block of `safeFetch`: `fetch` the URL, throw `HTTP <status>`
on a non-ok status, read and return the body text. -/
def fetchAttempt (r : FetchSpec) : Except String String :=
  if r.netError then .error "fetch failed"
  else if !(resOk r.status) then .error ("HTTP " ++ toString r.status)
  else if r.bodyReadError then .error "body read failed"
  else .ok r.body

/-- Model of `safeFetch(url, timeoutMs)`: the `try`/`catch` wrapper — any throw of the
attempt is caught and converted to `null` (`none`). -/
def safeFetch (r : FetchSpec) : Option String :=
  match fetchAttempt r with
  | .ok t => some t
  | .error _ => none

/-! ## Keyword extraction (`extractKeywordsFromHtml`, analyze.mjs lines 38–48) -/

/-- JavaScript `\w` word character (ASCII). -/
def isWordChar (c : Char) : Bool :=
  ('a' ≤ c && c ≤ 'z') || ('A' ≤ c && c ≤ 'Z') || ('0' ≤ c && c ≤ '9') || c = '_'

/-- Lowercase ASCII letter. -/
def isLowerAlpha (c : Char) : Bool := 'a' ≤ c && c ≤ 'z'

/-- The matches of `/\b[a-z]{4,}\b/g` on a lowercased string: exactly the
maximal word-character runs that consist solely of `a`–`z` and have length at
least 4 (a run containing a digit or `_` has no internal word boundary, so it
produces no match). -/
def regexWordMatches (s : String) : List String :=
  ((splitStr s (fun c => !(isWordChar c))).filter (fun t => t ≠ "")).filter
    (fun t => t.data.all (fun c => isLowerAlpha c) && 4 ≤ t.length)

/-- The stopword set of `extractKeywordsFromHtml`. -/
def isStopword (w : String) : Bool :=
  w = "this" || w = "that" || w = "with" || w = "from" || w = "your" ||
  w = "have" || w = "will" || w = "here" || w = "true" || w = "null" ||
  w = "https" || w = "http"

/-- Model of `freq[w] = (freq[w] || 0) + 1` on a string-keyed object: bump the count of
`w`, preserving first-insertion order of the keys (JavaScript object key
order for non-integer keys). -/
def bumpFreq : List (String × Nat) → String → List (String × Nat)
  | [], w => [(w, 1)]
  | (k, c) :: t, w => if k = w then (k, c + 1) :: t else (k, c) :: bumpFreq t w

/-- The frequency table built by the `for` loop (stopwords excluded),
entries in first-occurrence order as `Object.entries` returns them. -/
def countFreq (ws : List String) : List (String × Nat) :=
  (ws.filter (fun w => !(isStopword w))).foldl bumpFreq []

/-- Insert an entry into a count-descending list, before the first entry with
a strictly smaller count (the entry being inserted precedes, in the original
list, everything already inserted, so this yields the stable descending
order of `Array.prototype.sort` with comparator `b[1] - a[1]`). -/
def insertByCount (x : String × Nat) : List (String × Nat) → List (String × Nat)
  | [] => [x]
  | y :: ys => if y.2 ≤ x.2 then x :: y :: ys else y :: insertByCount x ys

/-- Stable sort by descending count. -/
def sortByCountDesc : List (String × Nat) → List (String × Nat)
  | [] => []
  | x :: xs => insertByCount x (sortByCountDesc xs)

/-- The sorted (word, count) ranking underlying the keyword list. -/
def keywordRanking (bodyText : String) : List (String × Nat) :=
  sortByCountDesc (countFreq (regexWordMatches (toLowerStr (collapseWs bodyText))))

/-- Function `extractKeywordsFromHtml` applied to an already-extracted body text:
lowercase, tokenize, drop stopwords, count, sort by descending frequency,
keep the first `limit` words. -/
def extractKeywordsFromText (bodyText : String) (limit : Nat) : List String :=
  ((keywordRanking bodyText).take limit).map (fun e => e.1)

/-- Model of `extractKeywordsFromHtml(html, limit)`: load the HTML, take the body
text with whitespace collapsed, and extract the ranked keywords. -/
def extractKeywordsFromHtml (html : String) (limit : Nat) : List String :=
  extractKeywordsFromText (textOfAll "body" (parseHtml false html)) limit

/-! ## URL parsing (model of the WHATWG `new URL`) -/

/-- The parts of a parsed absolute `http`/`https` URL used by the pipeline. -/
structure UrlParts where
  scheme : String
  hostname : String
  pathname : String
deriving DecidableEq, Repr

/-- Origin (`scheme://host`) of a parsed URL. -/
def UrlParts.origin (u : UrlParts) : String := u.scheme ++ "://" ++ u.hostname

/-- Model of `new URL(s)` for the shapes produced by the pipeline's
normalization: an `http://` or `https://` prefix, a non-empty host, and an
optional path (defaulting to `/`).  Any other string throws (`none`). -/
def urlParse (s : String) : Option UrlParts :=
  let rest :=
    if jsStartsWith s "https://" then some ("https", String.mk (s.data.drop 8))
    else if jsStartsWith s "http://" then some ("http", String.mk (s.data.drop 7))
    else none
  match rest with
  | none => none
  | some (scheme, r) =>
    let host := String.mk (r.data.takeWhile (fun c => c ≠ '/'))
    if host = "" then none
    else
      let p := String.mk (r.data.dropWhile (fun c => c ≠ '/'))
      some { scheme := scheme, hostname := host, pathname := if p = "" then "/" else p }

/-! ## JSON-LD extraction (`extractJsonLd`, analyze.mjs lines 51–61) -/

/-- The view of one parsed JSON-LD block that the pipeline consumes:
the `@type` value (a string is array-ified), the `@type`s of the members of
`@graph`, and the lowercased `JSON.stringify` rendering (used by the
`includes('product')` test). -/
structure JsonLdBlock where
  typeVals : Option (List String)
  graphTypeVals : Option (List String)
  stringifyLower : String
deriving DecidableEq, Repr

/-- Model of `extractJsonLd($)`: for every `script[type="application/ld+json"]`
element, parse its raw content with the (external) `JSON.parse`, spreading a
top-level array; parse failures are swallowed.  `jsonParse` is the
environment's model of `JSON.parse` (returning the block list, or `none` on
a parse error). -/
def extractJsonLd (jsonParse : String → Option (List JsonLdBlock)) (doc : HForest) :
    List JsonLdBlock :=
  (forestCollect (fun t a => t = "script" && attrIs a "type" "application/ld+json") doc).foldl
    (fun out el =>
      match jsonParse (nodeText el) with
      | some blocks => out ++ blocks
      | none => out)
    []

/-- Model of `structuredDataTypes` (analyze.mjs lines 220–224): `@type`s (or `@graph`
member `@type`s) of every block, deduplicated preserving first occurrence
(`new Set`), lowercased. -/
def structuredDataTypes (blocks : List JsonLdBlock) : List String :=
  ((blocks.flatMap (fun b =>
      match b.typeVals with
      | some ts => ts
      | none =>
        match b.graphTypeVals with
        | some gs => gs
        | none => [])).eraseDups).map (fun s => toLowerStr s)

/-! ## Sitemap and robots probes (analyze.mjs lines 63–93) -/

/-- Result of `fetchSitemapInfo`. -/
structure SitemapInfo where
  sitemapUrl : Option String
  pages : Option Nat
  latestSitemapDate : Option String
deriving DecidableEq, Repr

/-- Maximum of a list of integers (`Math.max(...)` over a non-empty list). -/
def maxListInt : List Int → Int
  | [] => 0
  | [x] => x
  | x :: y :: xs => max x (maxListInt (y :: xs))

/-- Derive a `SitemapInfo` from a successfully fetched sitemap document:
count the `<url>` elements (`|| null` maps a zero count to `null`), collect
the `<lastmod>` texts, and render the latest date.  `dateParseMs`/`msToIso`
model the JavaScript `Date` built-ins; an unparseable date gives `NaN`, whose
`toISOString` throws, which the surrounding `try` of `fetchSitemapInfo`
converts to the all-`null` default. -/
def sitemapFromXml (dateParseMs : String → Option Int) (msToIso : Int → String)
    (sUrl xml : String) : SitemapInfo :=
  let doc := parseHtml true xml
  let urls := (elemsTagged "url" doc).length
  let lastmods := (elemsTagged "lastmod" doc).map nodeText
  let pages := if urls = 0 then none else some urls
  match lastmods with
  | [] => { sitemapUrl := some sUrl, pages := pages, latestSitemapDate := none }
  | _ =>
    match lastmods.mapM dateParseMs with
    | some ts =>
      { sitemapUrl := some sUrl, pages := pages
        latestSitemapDate := some (msToIso (maxListInt ts)) }
    | none => { sitemapUrl := none, pages := none, latestSitemapDate := none }

/-- Model of `fetchSitemapInfo(url)`: probe `origin + "/sitemap.xml"` then
`origin + "/sitemap_index.xml"`, using the first candidate whose fetch
succeeds; every failure path yields the all-`null` default.  The fetch
outcomes for the two candidate URLs are `smFetch` and `smIdxFetch`. -/
def fetchSitemapInfo (dateParseMs : String → Option Int) (msToIso : Int → String)
    (smFetch smIdxFetch : FetchSpec) (url : String) : SitemapInfo :=
  match urlParse url with
  | none => { sitemapUrl := none, pages := none, latestSitemapDate := none }
  | some u =>
    let base := u.origin
    match safeFetch smFetch with
    | some xml => sitemapFromXml dateParseMs msToIso (base ++ "/sitemap.xml") xml
    | none =>
      match safeFetch smIdxFetch with
      | some xml => sitemapFromXml dateParseMs msToIso (base ++ "/sitemap_index.xml") xml
      | none => { sitemapUrl := none, pages := none, latestSitemapDate := none }

/-- Result of `fetchRobotsInfo`. -/
structure RobotsInfo where
  robots : Option String
  crawlAllowed : Bool
deriving DecidableEq, Repr

/-- Model of `fetchRobotsInfo(url)`: fetch `origin + "/robots.txt"`; on success,
`crawlAllowed` is false exactly when some trimmed non-empty `Disallow:` line
ends in a bare `/` (`/:\s*\/\s*$/`). -/
def fetchRobotsInfo (robotsFetch : FetchSpec) (url : String) : RobotsInfo :=
  match urlParse url with
  | none => { robots := none, crawlAllowed := true }
  | some _ =>
    match safeFetch robotsFetch with
    | none => { robots := none, crawlAllowed := true }
    | some txt =>
      let disallows := (((splitLines txt).map (fun l => jsTrim l)).filter
          (fun l => l ≠ "")).filter (fun l => startsWithCI "disallow:" l)
      { robots := some txt
        crawlAllowed := !(disallows.any (fun d => rootDisallowPattern d)) }

/-! ## Tech detection (`detectTech`, analyze.mjs lines 96–106) -/

/-- Result of `detectTech`. -/
structure Tech where
  analytics : List String
  canonical : Option String
deriving DecidableEq, Repr

/-- Model of `detectTech(html, $)`: regex membership tests over the lowercased raw
HTML plus the first `link[rel="canonical"]` `href`. -/
def detectTech (html : String) (doc : HForest) : Tech :=
  let s := toLowerStr html
  { analytics :=
      (if strContains s "gtag(" || strContains s "google-analytics" ||
          strContains s "analytics.js" || strContains s "measurementid=g-"
        then ["GA"] else []) ++
      (if strContains s "googletagmanager.com/gtm.js" then ["GTM"] else []) ++
      (if strContains s "fbq(" || strContains s "facebook.net/tr.js"
        then ["Facebook Pixel"] else [])
    canonical :=
      jsStrOrNull (firstAttr (fun t a => t = "link" && attrIs a "rel" "canonical")
        "href" doc) }

/-! ## Conversion signals (`detectConversion`, analyze.mjs lines 109–124) -/

/-- Result of `detectConversion`. -/
structure Conversion where
  ctaCount : Nat
  forms : Nat
  hasProductLd : Bool
  pageType : String
  hasCart : Bool
  isEcommerce : Bool
deriving DecidableEq, Repr

/-- The CTA text test `/buy|order|add to cart|subscribe|get started|checkout/i`
applied to the lowercased element text (falling back to `aria-label`). -/
def ctaTextTest (n : HNode) : Bool :=
  let raw := nodeText n
  let raw := if raw = "" then (elemAttr n "aria-label").getD "" else raw
  let txt := toLowerStr raw
  strContains txt "buy" || strContains txt "order" || strContains txt "add to cart" ||
  strContains txt "subscribe" || strContains txt "get started" || strContains txt "checkout"

/-- Model of `detectConversion($, jsonLdBlocks, url)`.  The `new URL(url)` call is not
wrapped in a `try`, so the caller must pass a parseable URL (`analyzeWebsite`
throws there otherwise, which the embedding checks before composing). -/
def detectConversion (doc : HForest) (jsonLdBlocks : List JsonLdBlock)
    (u : UrlParts) : Conversion :=
  let ctaCount := ((forestCollect
      (fun t a => t = "a" || t = "button" || (t = "input" && attrIs a "type" "submit"))
      doc).filter ctaTextTest).length
  let forms := (elemsTagged "form" doc).length
  let hasProductLd := jsonLdBlocks.any (fun b => strContains b.stringifyLower "product")
  let urlPath := toLowerStr u.pathname
  let pageType :=
    if hasProductLd || strContains urlPath "/product" || strContains urlPath "/item/" then
      "product"
    else if strContains urlPath "/blog" || strContains urlPath "/article" ||
        strContains urlPath "/post" then "article"
    else if urlPath = "/" then "homepage"
    else "landing"
  let hasCart := 0 < (forestCollect
      (fun t a => (t = "a" && (attrHas a "href" "cart" || attrHas a "href" "checkout")) ||
        attrHas a "class" "cart") doc).length
  { ctaCount := ctaCount, forms := forms, hasProductLd := hasProductLd
    pageType := pageType, hasCart := hasCart
    isEcommerce := hasProductLd || hasCart }

/-! ## Social links (analyze.mjs lines 153–164) -/

/-- Model of `extractSocialLinks($)`: for each platform, the `href` of the first
anchor whose `href` contains `<platform>.com`, recorded in platform order
(JavaScript object insertion order); a falsy `href` is skipped. -/
def extractSocialLinks (doc : HForest) : List (String × String) :=
  (["facebook", "twitter", "instagram", "linkedin", "youtube", "tiktok"]).foldr
    (fun p acc =>
      match firstAttr (fun t a => t = "a" && attrHas a "href" (p ++ ".com")) "href" doc with
      | some href => if href = "" then acc else (p, href) :: acc
      | none => acc)
    []

/-- Model of `computeSocialScore(profiles)`. -/
def computeSocialScore (profiles : List (String × String)) : Nat :=
  min 100 (profiles.length * 20)

/-! ## Lighthouse audit (`runLighthouse`, analyze.mjs lines 127–150) -/

/-- The fields of a lighthouse result (`lhr`) read by `runLighthouse`:
category scores are fractions in `[0, 1]`, audit numeric values are
milliseconds/ratios, `displayValue`s are strings (absent audits give
`undefined`, modelled as `none`). -/
structure Lhr where
  perfScore : Rat
  accScore : Rat
  seoScore : Rat
  lcp : Option Rat
  cls : Option Rat
  tbt : Option Rat
  renderBlocking : Option String
  unusedJS : Option String
  imageOptimization : Option String
  thirdPartyRequests : Option String
deriving DecidableEq, Repr

/-- Model of `Math.round` on the rationals produced by score scaling. -/
def jsRound (q : Rat) : Int := round q

/-- JavaScript `x || null` on an optional number (`0` is falsy). -/
def jsNumOrNull (o : Option Rat) : Option Rat :=
  match o with
  | some v => if v = 0 then none else some v
  | none => none

/-- The `keyAudits` sub-object of a lighthouse result. -/
structure KeyAudits where
  renderBlocking : Option String
  unusedJS : Option String
  imageOptimization : Option String
  thirdPartyRequests : Option String
deriving DecidableEq, Repr

/-- The value built from a successful lighthouse run. -/
structure LighthouseResult where
  performanceScore : Int
  accessibilityScore : Int
  seoScore : Int
  lcp : Option Rat
  cls : Option Rat
  tbt : Option Rat
  keyAudits : KeyAudits
deriving DecidableEq, Repr

/-- Model of `runLighthouse(url)`: launch a chrome instance and run lighthouse; any
failure (no launchable browser binary, audit failure) is caught and yields
`null`.  `chromeLaunchOk` is whether `chromeLaunch` resolves and `lhrOpt`
the lighthouse run outcome (`none` when the `lighthouse(...)` call rejects). -/
def runLighthouseModel (chromeLaunchOk : Bool) (lhrOpt : Option Lhr) :
    Option LighthouseResult :=
  if !chromeLaunchOk then none
  else
    match lhrOpt with
    | none => none
    | some lhr =>
      some { performanceScore := jsRound (lhr.perfScore * 100)
             accessibilityScore := jsRound (lhr.accScore * 100)
             seoScore := jsRound (lhr.seoScore * 100)
             lcp := jsNumOrNull lhr.lcp
             cls := jsNumOrNull lhr.cls
             tbt := jsNumOrNull lhr.tbt
             keyAudits := { renderBlocking := jsStrOrNull lhr.renderBlocking
                            unusedJS := jsStrOrNull lhr.unusedJS
                            imageOptimization := jsStrOrNull lhr.imageOptimization
                            thirdPartyRequests := jsStrOrNull lhr.thirdPartyRequests } }

/-! ## The aggregate report (`analyzeWebsite` return object, lines 190–246) -/

/-- Sub-object `siteSignals` of the report. -/
structure SiteSignals where
  hasSitemap : Bool
  sitemapUrl : Option String
  pagesIndexedEstimate : Option Nat
  sitemapLatestDate : Option String
  robots : Bool
  crawlAllowed : Bool
  analytics : List String
  ssl_valid : Bool
deriving DecidableEq, Repr

/-- Sub-object `htmlMetrics` of the report. -/
structure HtmlMetrics where
  title : Option String
  description : Option String
  h1_text : Option String
  h1_present : Bool
  wordCount : Nat
  links : Nat
  images : Nat
  missingAlt : Nat
deriving DecidableEq, Repr

/-- The metascraper output consumed as `metadata` (each rule-chain field may
be absent).  Produced by the external metascraper library, so its value is a
component of the environment. -/
structure Metadata where
  title : Option String
  description : Option String
  url : Option String
  image : Option String
  logo : Option String
deriving DecidableEq, Repr

/-- Sub-object `seo` of the report. -/
structure Seo where
  titleLength : Nat
  metaDescLength : Nat
  h1_present : Bool
  structuredDataTypes : List String
deriving DecidableEq, Repr

/-- Sub-object `content` of the report. -/
structure ContentInfo where
  keywords : List String
  contentFreshnessLatest : Option String
  ctaCount : Nat
  wordCount : Nat
  images : Nat
  missingAlt : Nat
deriving DecidableEq, Repr

/-- Sub-object `social` of the report. -/
structure Social where
  profiles : List (String × String)
  presenceScore : Nat
deriving DecidableEq, Repr

/-- Sub-object `conversionSignals` of the report. -/
structure ConversionSignals where
  hasCheckout : Bool
  hasNewsletter : Bool
  ctaCount : Nat
  forms : Nat
deriving DecidableEq, Repr

/-- The Static HTML Extractor: the `htmlMetrics` object literal of
analyze.mjs lines 205–214, as a function of the fetched/rendered HTML. -/
def extractHtmlMetrics (html : String) : HtmlMetrics :=
  let doc := parseHtml false html
  { title := jsStrOrNull (some (jsTrim (textOfAll "title" doc)))
    description := jsStrOrNull (firstAttr
      (fun t a => t = "meta" && attrIs a "name" "description") "content" doc)
    h1_text := jsStrOrNull (some
      (jsTrim (((elemsTagged "h1" doc).head?.map nodeText).getD "")))
    h1_present := !(elemsTagged "h1" doc).isEmpty &&
      jsTrim (textOfAll "h1" doc) ≠ ""
    wordCount := (wsTokens (textOfAll "body" doc)).length
    links := (elemsTagged "a" doc).length
    images := (elemsTagged "img" doc).length
    missingAlt := (forestCollect
      (fun t a => t = "img" && (attrLookup a "alt").isNone) doc).length }

/-- The aggregate analysis report returned by `analyzeWebsite`. -/
structure Report where
  url : String
  domain : String
  canonical : Option String
  pageType : String
  siteSignals : SiteSignals
  htmlMetrics : HtmlMetrics
  metadata : Metadata
  seo : Seo
  content : ContentInfo
  performance : Option LighthouseResult
  social : Social
  conversionSignals : ConversionSignals
  analyzedAt : String
deriving DecidableEq, Repr

/-- The literal top-level keys of the object returned by `analyzeWebsite`
(source lines 190–246): the report has exactly these fields — in particular
no `accessibility`, `colors` or `error` key. -/
def reportFieldNames : List String :=
  ["url", "domain", "canonical", "pageType", "siteSignals", "htmlMetrics",
   "metadata", "seo", "content", "performance", "social", "conversionSignals",
   "analyzedAt"]

/-! ## The pipeline (`analyzeWebsite`, analyze.mjs lines 167–247) -/

/-- Exceptions that can escape `analyzeWebsite` (promise rejection). -/
inductive JsError where
  | browserLaunchFailed
  | navigationFailed
  | invalidUrl
  | scraperFailed
deriving DecidableEq, Repr

/-- Human-readable rendering of a `JsError` (`err.message`). -/
def jsErrorMessage : JsError → String
  | .browserLaunchFailed => "Failed to launch the browser process"
  | .navigationFailed => "Navigation timeout exceeded"
  | .invalidUrl => "Invalid URL"
  | .scraperFailed => "metascraper failed"

/-- Outcomes of every external call made during one `analyzeWebsite`
invocation (the "world" as seen through the effect boundary). -/
structure Env where
  /-- outcome of `safeFetch(normalizedUrl, 15000)` -/
  primaryFetch : FetchSpec
  /-- whether `puppeteer.launch` resolves -/
  browserLaunchOk : Bool
  /-- whether `page.goto(..., networkidle2, 30000)` resolves -/
  browserGotoOk : Bool
  /-- `page.content()` after a successful navigation -/
  renderedHtml : String
  /-- outcome of the `origin + "/sitemap.xml"` fetch -/
  sitemapFetch : FetchSpec
  /-- outcome of the `origin + "/sitemap_index.xml"` fetch -/
  sitemapIndexFetch : FetchSpec
  /-- outcome of the `origin + "/robots.txt"` fetch -/
  robotsFetch : FetchSpec
  /-- whether `chromeLaunch` (chrome-launcher) resolves inside `runLighthouse` -/
  chromeLaunchOk : Bool
  /-- outcome of the `lighthouse(...)` call (`none` = it rejects) -/
  lighthouseRun : Option Lhr
  /-- whether the metascraper call rejects -/
  scrapeThrows : Bool
  /-- the metascraper result when it resolves -/
  scraped : Metadata
  /-- model of `JSON.parse` for JSON-LD script contents -/
  jsonParse : String → Option (List JsonLdBlock)
  /-- model of `new Date(s).getTime()` (`none` = `NaN`) -/
  dateParseMs : String → Option Int
  /-- model of `new Date(ms).toISOString()` -/
  msToIso : Int → String
  /-- `new Date().toISOString()` at composition time -/
  now : String

/-- The result of `analyzeWebsite` together with the effect trace the
specification's properties talk about. -/
structure AnalyzeOutcome where
  result : Except JsError Report
  /-- the URL passed to the primary `safeFetch` -/
  fetchedUrl : String
  /-- whether `puppeteer.launch` was invoked -/
  browserLaunched : Bool
deriving Repr

/-- URL normalization (line 168): prefix `https://` unless the input already
starts with `http`. -/
def normalizeUrl (url : String) : String :=
  if jsStartsWith url "http" then url else "https://" ++ url

/-- The render fallback guard (line 171): `!html || html.length < 1000`. -/
def needsRender (fetched : Option String) : Bool :=
  match fetched with
  | none => true
  | some h => h.length < 1000

/-- Extraction and composition over the obtained HTML (lines 179–246).
Runs after the HTML is in hand: metascraper (a rejection propagates), then
the pure extractions and secondary probes, then the record literal.  The
`new URL(normalizedUrl)` calls inside `detectConversion` (line 116) and at
`domain:` (line 192) are the non-guarded parses; an invalid URL rejects. -/
def buildReport (env : Env) (optsRunLighthouse : Bool) (normalizedUrl html : String) :
    Except JsError Report :=
  if env.scrapeThrows then .error .scraperFailed
  else
    match urlParse normalizedUrl with
    | none => .error .invalidUrl
    | some u =>
      let doc := parseHtml false html
      let jsonLdBlocks := extractJsonLd env.jsonParse doc
      let keywords := extractKeywordsFromHtml html 20
      let sitemapInfo := fetchSitemapInfo env.dateParseMs env.msToIso
        env.sitemapFetch env.sitemapIndexFetch normalizedUrl
      let robotsInfo := fetchRobotsInfo env.robotsFetch normalizedUrl
      let tech := detectTech html doc
      let conversion := detectConversion doc jsonLdBlocks u
      let lighthouseResult :=
        if optsRunLighthouse then runLighthouseModel env.chromeLaunchOk env.lighthouseRun
        else none
      let socialProfiles := extractSocialLinks doc
      let bodyWordCount := (wsTokens (textOfAll "body" doc)).length
      let imgs := (elemsTagged "img" doc).length
      let missingAlt := (forestCollect
        (fun t a => t = "img" && (attrLookup a "alt").isNone) doc).length
      .ok
        { url := normalizedUrl
          domain := u.hostname
          canonical := tech.canonical
          pageType := conversion.pageType
          siteSignals :=
            { hasSitemap := sitemapInfo.sitemapUrl.isSome
              sitemapUrl := sitemapInfo.sitemapUrl
              pagesIndexedEstimate := sitemapInfo.pages
              sitemapLatestDate := sitemapInfo.latestSitemapDate
              robots := robotsInfo.robots.isSome
              crawlAllowed := robotsInfo.crawlAllowed
              analytics := tech.analytics
              ssl_valid := jsStartsWith normalizedUrl "https://" }
          htmlMetrics := extractHtmlMetrics html
          metadata := env.scraped
          seo :=
            { titleLength := (textOfAll "title" doc).length
              metaDescLength := ((firstAttr
                (fun t a => t = "meta" && attrIs a "name" "description")
                "content" doc).getD "").length
              h1_present := jsTrim (textOfAll "h1" doc) ≠ ""
              structuredDataTypes := structuredDataTypes jsonLdBlocks }
          content :=
            { keywords := keywords
              contentFreshnessLatest := sitemapInfo.latestSitemapDate
              ctaCount := conversion.ctaCount
              wordCount := bodyWordCount
              images := imgs
              missingAlt := missingAlt }
          performance := lighthouseResult
          social :=
            { profiles := socialProfiles
              presenceScore := computeSocialScore socialProfiles }
          conversionSignals :=
            { hasCheckout := conversion.hasCart
              hasNewsletter := !(forestCollect
                (fun t a => t = "input" && attrIs a "type" "email") doc).isEmpty
              ctaCount := conversion.ctaCount
              forms := conversion.forms }
          analyzedAt := env.now }

/-- Model of `analyzeWebsite(url, options)` (lines 167–247): normalize the URL, fetch
the page; when the fetch fails or the body is shorter than 1000 characters,
launch a headless browser and use the rendered content (launch or navigation
failures reject); then extract and compose. -/
def analyzeWebsite (env : Env) (optsRunLighthouse : Bool) (url : String) :
    AnalyzeOutcome :=
  let normalizedUrl := normalizeUrl url
  let fetched := safeFetch env.primaryFetch
  if needsRender fetched then
    if !env.browserLaunchOk then
      { result := .error .browserLaunchFailed, fetchedUrl := normalizedUrl
        browserLaunched := true }
    else if !env.browserGotoOk then
      { result := .error .navigationFailed, fetchedUrl := normalizedUrl
        browserLaunched := true }
    else
      { result := buildReport env optsRunLighthouse normalizedUrl env.renderedHtml
        fetchedUrl := normalizedUrl, browserLaunched := true }
  else
    { result := buildReport env optsRunLighthouse normalizedUrl (fetched.getD "")
      fetchedUrl := normalizedUrl, browserLaunched := false }

/-! ## Failure wrapper (`safeAnalyzeWebsite`, server/analysis/safeAnalyze.js) -/

/-- Sub-object `htmlMetrics` of the wrapper's fallback object. -/
structure FallbackHtmlMetrics where
  title : String
  description : String
  h1 : Option String
  wordCount : Nat
deriving DecidableEq, Repr

/-- Sub-object `metadata` of the wrapper's fallback object. -/
structure FallbackMetadata where
  title : String
  description : String
deriving DecidableEq, Repr

/-- Sub-object `accessibility` of the wrapper's fallback object. -/
structure FallbackAccessibility where
  violations : Nat
  details : List String
deriving DecidableEq, Repr

/-- Sub-object `performance` of the wrapper's fallback object. -/
structure FallbackPerformance where
  performanceScore : Nat
deriving DecidableEq, Repr

/-- The fully-shaped default-filled object returned by `safeAnalyzeWebsite`
when the underlying analysis fails (safeAnalyze.js lines 11–25).  The empty
objects `detectedLinks`, `socialProfiles`, `visualMetrics` and `reputation`
are modelled as empty association lists. -/
structure FallbackReport where
  url : String
  htmlMetrics : FallbackHtmlMetrics
  metadata : FallbackMetadata
  keywords : List String
  detectedLinks : List (String × String)
  socialProfiles : List (String × String)
  accessibility : FallbackAccessibility
  visualMetrics : List (String × String)
  performance : FallbackPerformance
  reputation : List (String × String)
  analyzedAt : String
  error : String
deriving DecidableEq, Repr

/-- The literal fallback object built in the `catch` block, for the original
(unnormalized) `url`, the current time, and the caught error's message. -/
def fallbackReport (url now msg : String) : FallbackReport :=
  { url := url
    htmlMetrics := { title := "Analysis Failed", description := "", h1 := none, wordCount := 0 }
    metadata := { title := "Analysis Failed", description := "" }
    keywords := []
    detectedLinks := []
    socialProfiles := []
    accessibility := { violations := 0, details := [] }
    visualMetrics := []
    performance := { performanceScore := 0 }
    reputation := []
    analyzedAt := now
    error := msg }

/-- The wrapper's resolution value: either the underlying report passed
through, or the default-filled fallback object. -/
inductive SafeResult where
  | report (r : Report)
  | fallback (f : FallbackReport)
deriving DecidableEq, Repr

/-- Model of `safeAnalyzeWebsite(url)`: normalize the URL, run the underlying
analysis (`run` abstracts `analyzeWebsite`'s behavior: it may reject with a
message, resolve with a nullish value — re-thrown as `"Empty analysis
result"` — or resolve with a report); every throw is caught and converted to
the fallback object.  The return type itself witnesses that the wrapper
never rejects. -/
def safeAnalyzeWebsite (now url : String)
    (run : String → Except String (Option Report)) : SafeResult :=
  match run (normalizeUrl url) with
  | .ok (some analysis) => .report analysis
  | .ok none => .fallback (fallbackReport url now "Empty analysis result")
  | .error e => .fallback (fallbackReport url now e)

/-- The instantiation of the wrapper's dependency with the embedded
`analyzeWebsite` (the import in safeAnalyze.js line 1). -/
def runAnalyze (env : Env) (optsRunLighthouse : Bool) :
    String → Except String (Option Report) :=
  fun u =>
    match (analyzeWebsite env optsRunLighthouse u).result with
    | .ok r => .ok (some r)
    | .error e => .error (jsErrorMessage e)

/-! ## Concrete scenarios used by the witnesses and counterexamples -/

/-- A fetch attempt that rejects with a network error. -/
def failFetch : FetchSpec :=
  { netError := true, status := 0, body := "", bodyReadError := false }

/-- A fetch attempt that resolves with status 200 and the given body. -/
def okFetch (body : String) : FetchSpec :=
  { netError := false, status := 200, body := body, bodyReadError := false }

/-- A small rendered page used by several scenarios. -/
def samplePage : String :=
  "<html><head><title>Hi there</title></head><body><h1>Hello</h1>alpha beta alpha gamma</body></html>"

/-- Environment: the primary fetch fails with a network error; the headless
browser launches, navigates, and renders `samplePage`; all secondary probes
fail; lighthouse cannot find a browser binary. -/
def renderEnv : Env :=
  { primaryFetch := failFetch
    browserLaunchOk := true
    browserGotoOk := true
    renderedHtml := samplePage
    sitemapFetch := failFetch
    sitemapIndexFetch := failFetch
    robotsFetch := failFetch
    chromeLaunchOk := false
    lighthouseRun := none
    scrapeThrows := false
    scraped := { title := none, description := none, url := none, image := none, logo := none }
    jsonParse := fun _ => none
    dateParseMs := fun _ => none
    msToIso := fun _ => ""
    now := "2026-01-01T00:00:00.000Z" }

/-- The report produced in the `renderEnv` scenario, parameterized by the
composition timestamp. -/
def renderReportAt (now : String) : Report :=
  { url := "https://example.com"
    domain := "example.com"
    canonical := none
    pageType := "homepage"
    siteSignals :=
      { hasSitemap := false, sitemapUrl := none, pagesIndexedEstimate := none
        sitemapLatestDate := none, robots := false, crawlAllowed := true
        analytics := [], ssl_valid := true }
    htmlMetrics :=
      { title := some "Hi there", description := none, h1_text := some "Hello"
        h1_present := true, wordCount := 4, links := 0, images := 0, missingAlt := 0 }
    metadata := { title := none, description := none, url := none, image := none, logo := none }
    seo := { titleLength := 8, metaDescLength := 0, h1_present := true, structuredDataTypes := [] }
    content :=
      { keywords := ["helloalpha", "beta", "alpha", "gamma"], contentFreshnessLatest := none
        ctaCount := 0, wordCount := 4, images := 0, missingAlt := 0 }
    performance := none
    social := { profiles := [], presenceScore := 0 }
    conversionSignals := { hasCheckout := false, hasNewsletter := false, ctaCount := 0, forms := 0 }
    analyzedAt := now }

/-- The `renderEnv` report. -/
def renderReport : Report := renderReportAt "2026-01-01T00:00:00.000Z"

/-- Projection: did the call resolve (with any report)? -/
def resultOk (o : AnalyzeOutcome) : Bool :=
  match o.result with
  | .ok _ => true
  | .error _ => false

/-- Projection: the `performance` field of a resolved report. -/
def resultPerformance (o : AnalyzeOutcome) : Option (Option LighthouseResult) :=
  match o.result with
  | .ok r => some r.performance
  | .error _ => none

/-- Projection: the `siteSignals.sitemapUrl` field of a resolved report. -/
def resultSitemapUrl (o : AnalyzeOutcome) : Option (Option String) :=
  match o.result with
  | .ok r => some r.siteSignals.sitemapUrl
  | .error _ => none

/-- Projection: the number of keywords of a resolved report. -/
def resultKeywordCount (o : AnalyzeOutcome) : Option Nat :=
  match o.result with
  | .ok r => some r.content.keywords.length
  | .error _ => none

/-! ## Supporting lemmas -/

/-- Membership under `insertByCount`. -/
theorem mem_insertByCount (x z : String × Nat) :
    ∀ l : List (String × Nat), z ∈ insertByCount x l ↔ z = x ∨ z ∈ l := by
  intro l
  induction l with
  | nil => simp [insertByCount]
  | cons y ys ih =>
    by_cases h : y.2 ≤ x.2
    · simp [insertByCount, h]
    · simp only [insertByCount, h, if_neg, not_false_iff, List.mem_cons, ih]
      tauto

/-- Insertion `insertByCount` preserves the count-descending pairwise order. -/
theorem pairwise_insertByCount (x : String × Nat) :
    ∀ l : List (String × Nat), List.Pairwise (fun a b => b.2 ≤ a.2) l →
      List.Pairwise (fun a b => b.2 ≤ a.2) (insertByCount x l) := by
  intro l
  induction l with
  | nil => intro _; simp [insertByCount]
  | cons y ys ih =>
    intro h
    rcases List.pairwise_cons.mp h with ⟨hy, hys⟩
    by_cases hc : y.2 ≤ x.2
    · simp only [insertByCount, hc, if_pos]
      refine List.pairwise_cons.mpr ⟨?_, h⟩
      intro z hz
      rcases List.mem_cons.mp hz with rfl | hz'
      · exact hc
      · exact le_trans (hy z hz') hc
    · have hxy : x.2 ≤ y.2 := by omega
      simp only [insertByCount, hc, if_neg, not_false_iff]
      refine List.pairwise_cons.mpr ⟨?_, ih hys⟩
      intro z hz
      rcases (mem_insertByCount x z ys).mp hz with rfl | hz'
      · exact hxy
      · exact hy z hz'

/-- Sorting `sortByCountDesc` sorts by non-increasing count. -/
theorem sortByCountDesc_pairwise :
    ∀ l : List (String × Nat),
      List.Pairwise (fun a b => b.2 ≤ a.2) (sortByCountDesc l) := by
  intro l
  induction l with
  | nil => simp [sortByCountDesc]
  | cons x xs ih => exact pairwise_insertByCount x _ ih

/-- The keyword ranking is ordered by non-increasing frequency. -/
theorem keywordRanking_sorted (t : String) :
    List.Pairwise (fun a b => b.2 ≤ a.2) (keywordRanking t) :=
  sortByCountDesc_pairwise _

/-- Extraction `extractKeywordsFromText` returns at most `limit` entries. -/
theorem extractKeywordsFromText_length_le (t : String) (limit : Nat) :
    (extractKeywordsFromText t limit).length ≤ limit := by
  simp only [extractKeywordsFromText, List.length_map, List.length_take]
  exact min_le_left _ _

/-- Branch-free description of the result of `analyzeWebsite`. -/
theorem analyzeWebsite_result_def (env : Env) (opts : Bool) (url : String) :
    (analyzeWebsite env opts url).result =
      (if needsRender (safeFetch env.primaryFetch) then
        if !env.browserLaunchOk then .error .browserLaunchFailed
        else if !env.browserGotoOk then .error .navigationFailed
        else buildReport env opts (normalizeUrl url) env.renderedHtml
      else buildReport env opts (normalizeUrl url)
        ((safeFetch env.primaryFetch).getD "")) := by
  by_cases hnr : needsRender (safeFetch env.primaryFetch) = true
  · by_cases hl : env.browserLaunchOk = true
    · by_cases hg : env.browserGotoOk = true
      · simp [analyzeWebsite, hnr, hl, hg]
      · simp [analyzeWebsite, hnr, hl, Bool.eq_false_iff.mpr hg]
    · simp [analyzeWebsite, hnr, Bool.eq_false_iff.mpr hl]
  · simp [analyzeWebsite, Bool.eq_false_iff.mpr hnr]

/-- The browser is launched exactly when the render fallback is taken. -/
theorem analyzeWebsite_browserLaunched (env : Env) (opts : Bool) (url : String) :
    (analyzeWebsite env opts url).browserLaunched =
      needsRender (safeFetch env.primaryFetch) := by
  by_cases hnr : needsRender (safeFetch env.primaryFetch) = true
  · by_cases hl : env.browserLaunchOk = true
    · by_cases hg : env.browserGotoOk = true
      · simp [analyzeWebsite, hnr, hl, hg]
      · simp [analyzeWebsite, hnr, hl, Bool.eq_false_iff.mpr hg]
    · simp [analyzeWebsite, hnr, Bool.eq_false_iff.mpr hl]
  · simp [analyzeWebsite, Bool.eq_false_iff.mpr hnr]

/-- The primary fetch is always performed on the normalized URL. -/
theorem analyzeWebsite_fetchedUrl (env : Env) (opts : Bool) (url : String) :
    (analyzeWebsite env opts url).fetchedUrl = normalizeUrl url := by
  by_cases hnr : needsRender (safeFetch env.primaryFetch) = true
  · by_cases hl : env.browserLaunchOk = true
    · by_cases hg : env.browserGotoOk = true
      · simp [analyzeWebsite, hnr, hl, hg]
      · simp [analyzeWebsite, hnr, hl, Bool.eq_false_iff.mpr hg]
    · simp [analyzeWebsite, hnr, Bool.eq_false_iff.mpr hl]
  · simp [analyzeWebsite, Bool.eq_false_iff.mpr hnr]

set_option maxHeartbeats 1600000 in
/-- Field content of a successfully composed report. -/
theorem buildReport_ok_fields (env : Env) (opts : Bool) (n h : String) (r : Report) :
    buildReport env opts n h = .ok r →
      r.url = n ∧
      r.htmlMetrics = extractHtmlMetrics h ∧
      r.content.keywords = extractKeywordsFromHtml h 20 ∧
      r.performance =
        (if opts then runLighthouseModel env.chromeLaunchOk env.lighthouseRun else none) ∧
      r.siteSignals.sitemapUrl =
        (fetchSitemapInfo env.dateParseMs env.msToIso env.sitemapFetch
          env.sitemapIndexFetch n).sitemapUrl := by
  intro hok
  unfold buildReport at hok
  by_cases hs : env.scrapeThrows = true
  · rw [if_pos hs] at hok
    exact Except.noConfusion hok
  · rw [if_neg hs] at hok
    rcases hu : urlParse n with _ | u
    · rw [hu] at hok
      exact Except.noConfusion hok
    · rw [hu] at hok
      have hr := (Except.ok.injEq _ _).mp hok
      subst hr
      exact ⟨rfl, rfl, rfl, rfl, rfl⟩

/-- The HTML the pipeline extracts from, when it reaches extraction: the
fetched body when it is long enough, otherwise the rendered content
(available only when launch and navigation succeed). -/
def effectiveHtml (env : Env) : Option String :=
  let fetched := safeFetch env.primaryFetch
  if needsRender fetched then
    if env.browserLaunchOk && env.browserGotoOk then some env.renderedHtml else none
  else fetched

/-- Erase the `performance` field of a report (for stating that the other
fields do not depend on the performance branch). -/
def stripPerformance (r : Report) : Report := { r with performance := none }

/-- A resolved report's `htmlMetrics` is the static extraction of the
effective HTML. -/
theorem analyzeWebsite_ok_metrics (env : Env) (opts : Bool) (url : String) (r : Report)
    (h : (analyzeWebsite env opts url).result = .ok r) :
    ∃ html, effectiveHtml env = some html ∧ r.htmlMetrics = extractHtmlMetrics html := by
  rw [analyzeWebsite_result_def] at h
  by_cases hnr : needsRender (safeFetch env.primaryFetch) = true
  · rw [if_pos hnr] at h
    by_cases hl : env.browserLaunchOk = true
    · by_cases hg : env.browserGotoOk = true
      · rw [if_neg (by simp [hl]), if_neg (by simp [hg])] at h
        exact ⟨env.renderedHtml, by simp [effectiveHtml, hnr, hl, hg],
          (buildReport_ok_fields _ _ _ _ _ h).2.1⟩
      · rw [if_neg (by simp [hl]), if_pos (by simp [Bool.eq_false_iff.mpr hg])] at h
        exact Except.noConfusion h
    · rw [if_pos (by simp [Bool.eq_false_iff.mpr hl])] at h
      exact Except.noConfusion h
  · rw [if_neg hnr] at h
    rcases hf : safeFetch env.primaryFetch with _ | b
    · rw [hf] at hnr
      exact absurd rfl hnr
    · rw [hf] at h hnr
      refine ⟨b, ?_, (buildReport_ok_fields _ _ _ _ _ h).2.1⟩
      simp [effectiveHtml, hf, hnr]

set_option maxHeartbeats 1600000 in
/-- Composition `buildReport` with different performance-branch outcomes differs at most
in the `performance` field. -/
theorem buildReport_perf_independent (env : Env) (c : Bool) (l : Option Lhr)
    (opts : Bool) (n h : String) :
    Except.map stripPerformance
        (buildReport { env with chromeLaunchOk := c, lighthouseRun := l } opts n h) =
      Except.map stripPerformance (buildReport env opts n h) := by
  unfold buildReport
  by_cases hs : env.scrapeThrows = true
  · simp only [hs, if_pos]
  · simp only [hs, if_neg, not_false_iff]
    rcases hu : urlParse n with _ | u
    · rfl
    · simp only [Except.map, stripPerformance]
      rfl

set_option maxHeartbeats 1600000 in
/-- At the pipeline level: changing only the performance-branch outcomes
changes at most the `performance` field of the result (and never whether or
why the call fails, nor whether the browser is launched). -/
theorem analyzeWebsite_perf_independent (env : Env) (c : Bool) (l : Option Lhr)
    (opts : Bool) (url : String) :
    Except.map stripPerformance
        (analyzeWebsite { env with chromeLaunchOk := c, lighthouseRun := l } opts url).result =
      Except.map stripPerformance (analyzeWebsite env opts url).result ∧
    (analyzeWebsite { env with chromeLaunchOk := c, lighthouseRun := l } opts url).browserLaunched =
      (analyzeWebsite env opts url).browserLaunched := by
  constructor
  · rw [analyzeWebsite_result_def, analyzeWebsite_result_def]
    rw [(rfl : ({ env with chromeLaunchOk := c, lighthouseRun := l } : Env).primaryFetch
          = env.primaryFetch),
        (rfl : ({ env with chromeLaunchOk := c, lighthouseRun := l } : Env).browserLaunchOk
          = env.browserLaunchOk),
        (rfl : ({ env with chromeLaunchOk := c, lighthouseRun := l } : Env).browserGotoOk
          = env.browserGotoOk),
        (rfl : ({ env with chromeLaunchOk := c, lighthouseRun := l } : Env).renderedHtml
          = env.renderedHtml)]
    split_ifs with h1 h2 h3 <;>
      first
        | rfl
        | exact buildReport_perf_independent env c l opts (normalizeUrl url) _
  · rw [analyzeWebsite_browserLaunched, analyzeWebsite_browserLaunched]

/-- A sitemap probe result records either the probed URL or nothing. -/
theorem sitemapFromXml_url (d : String → Option Int) (iso : Int → String)
    (sUrl xml : String) :
    (sitemapFromXml d iso sUrl xml).sitemapUrl = some sUrl ∨
      (sitemapFromXml d iso sUrl xml).sitemapUrl = none := by
  unfold sitemapFromXml
  rcases hm : List.map nodeText (elemsTagged "lastmod" (parseHtml true xml)) with _ | ⟨m, ms⟩
  · left
    simp [hm]
  · rcases ht : List.mapM.loop d (m :: ms) [] with _ | ts
    · right
      simp [hm, ht]
    · left
      simp [hm, ht]

/-- Resolution result `sitemapUrl` is always `null` or one of the two conventional probe URLs
derived from the origin — never a URL taken from anywhere else. -/
theorem fetchSitemapInfo_conventional (d : String → Option Int) (iso : Int → String)
    (s1 s2 : FetchSpec) (u : String) :
    (fetchSitemapInfo d iso s1 s2 u).sitemapUrl = none ∨
      (∃ up, urlParse u = some up ∧
        ((fetchSitemapInfo d iso s1 s2 u).sitemapUrl = some (up.origin ++ "/sitemap.xml") ∨
         (fetchSitemapInfo d iso s1 s2 u).sitemapUrl = some (up.origin ++ "/sitemap_index.xml"))) := by
  unfold fetchSitemapInfo
  rcases hu : urlParse u with _ | up
  · left; rfl
  · rcases h1 : safeFetch s1 with _ | xml1
    · rcases h2 : safeFetch s2 with _ | xml2
      · left; rfl
      · rcases sitemapFromXml_url d iso (up.origin ++ "/sitemap_index.xml") xml2 with h | h
        · right; exact ⟨up, rfl, Or.inr h⟩
        · left; exact h
    · rcases sitemapFromXml_url d iso (up.origin ++ "/sitemap.xml") xml1 with h | h
      · right; exact ⟨up, rfl, Or.inl h⟩
      · left; exact h

set_option maxHeartbeats 1600000 in
/-- The robots.txt fetch outcome has no influence on `sitemapUrl`: replacing
it by any other outcome leaves the resolved sitemap URL unchanged. -/
theorem analyzeWebsite_sitemap_ignores_robots (env : Env) (f : FetchSpec)
    (opts : Bool) (url : String) :
    resultSitemapUrl (analyzeWebsite { env with robotsFetch := f } opts url) =
      resultSitemapUrl (analyzeWebsite env opts url) := by
  unfold resultSitemapUrl
  rw [analyzeWebsite_result_def, analyzeWebsite_result_def]
  rw [(rfl : ({ env with robotsFetch := f } : Env).primaryFetch = env.primaryFetch),
      (rfl : ({ env with robotsFetch := f } : Env).browserLaunchOk = env.browserLaunchOk),
      (rfl : ({ env with robotsFetch := f } : Env).browserGotoOk = env.browserGotoOk),
      (rfl : ({ env with robotsFetch := f } : Env).renderedHtml = env.renderedHtml)]
  have hbuild : ∀ h : String,
      (match buildReport { env with robotsFetch := f } opts (normalizeUrl url) h with
        | .ok r => some r.siteSignals.sitemapUrl
        | .error _ => none) =
      (match buildReport env opts (normalizeUrl url) h with
        | .ok r => some r.siteSignals.sitemapUrl
        | .error _ => none) := by
    intro h
    unfold buildReport
    by_cases hs : env.scrapeThrows = true
    · simp only [hs, if_pos]
    · simp only [hs, if_neg, not_false_iff]
      rcases hu : urlParse (normalizeUrl url) with _ | u
      · rfl
      · rfl
  split_ifs with h1 h2 h3 <;> first | rfl | exact hbuild _

/-! ## Claims -/

/-- C3: The fetcher `safeFetch` never raises: for every URL and timeout, any
network error (including an abort on timeout), any non-2xx status, and any
body-read failure all yield `null`, and a successful 2xx response yields the
response body text.  (The `Option` return type models the absence of any
escaping exception: every outcome of the attempt is caught and mapped to a
value.) -/
theorem claim3_safeFetch_never_raises (r : FetchSpec) :
    safeFetch r =
      if r.netError = false ∧ resOk r.status = true ∧ r.bodyReadError = false
      then some r.body else none := by
  rcases r with ⟨ne, st, b, bre⟩
  cases ne <;> cases bre <;> by_cases hok : resOk st = true <;>
    simp [safeFetch, fetchAttempt, hok]

/-- C8: every input URL that does not start with `"http"` is normalized by
prefixing `"https://"` before any fetch occurs — the primary fetch is issued
for the prefixed URL — and the report's `url` field carries the prefixed
URL. -/
theorem claim8_url_normalization (env : Env) (opts : Bool) (url : String)
    (h : jsStartsWith url "http" = false) :
    (analyzeWebsite env opts url).fetchedUrl = "https://" ++ url ∧
    ∀ r, (analyzeWebsite env opts url).result = .ok r → r.url = "https://" ++ url := by
  have hn : normalizeUrl url = "https://" ++ url := by simp [normalizeUrl, h]
  constructor
  · rw [analyzeWebsite_fetchedUrl, hn]
  · intro r hr
    rw [analyzeWebsite_result_def] at hr
    split_ifs at hr with h1 h2 h3 <;>
      first
        | exact Except.noConfusion hr
        | (rw [← hn]; exact (buildReport_ok_fields _ _ _ _ _ hr).1)

/-- C8 witness: the input `"example.com"` is fetched as
`"https://example.com"`. -/
theorem claim8_witness :
    (analyzeWebsite renderEnv true "example.com").fetchedUrl =
      "https://" ++ "example.com" :=
  (claim8_url_normalization renderEnv true "example.com" (by decide)).1

/-- Environment: primary fetch fails and the browser also fails to launch. -/
def launchFailEnv : Env := { renderEnv with browserLaunchOk := false }

/-- C1 counterexample: an input whose primary fetch fails (network error) on
which `analyzeWebsite` launches the headless browser and resolves with a
full report — it does not return `{ error: "Page could not be fetched" }`
and it does perform further calls (the rendered-page extraction pipeline). -/
theorem claim1_counterexample :
    safeFetch renderEnv.primaryFetch = none ∧
    (analyzeWebsite renderEnv true "https://example.com").browserLaunched = true ∧
    resultOk (analyzeWebsite renderEnv true "https://example.com") = true := by
  refine ⟨rfl, rfl, ?_⟩
  rfl

/-- C1 (amended): for every input URL whose primary page fetch fails,
`analyzeWebsite` never returns an error object; instead it launches the
headless browser as a fallback: if the launch fails the rejection escapes,
if navigation fails the rejection escapes, and otherwise the full extraction
pipeline runs on the rendered HTML. -/
theorem claim1_fetch_failure_launches_browser (env : Env) (opts : Bool) (url : String)
    (h : safeFetch env.primaryFetch = none) :
    (analyzeWebsite env opts url).browserLaunched = true ∧
    (env.browserLaunchOk = false →
      (analyzeWebsite env opts url).result = .error .browserLaunchFailed) ∧
    (env.browserLaunchOk = true → env.browserGotoOk = false →
      (analyzeWebsite env opts url).result = .error .navigationFailed) ∧
    (env.browserLaunchOk = true → env.browserGotoOk = true →
      (analyzeWebsite env opts url).result =
        buildReport env opts (normalizeUrl url) env.renderedHtml) := by
  have hnr : needsRender (safeFetch env.primaryFetch) = true := by
    rw [h]; rfl
  refine ⟨?_, ?_, ?_, ?_⟩
  · rw [analyzeWebsite_browserLaunched, hnr]
  · intro hl
    rw [analyzeWebsite_result_def, if_pos hnr, if_pos (by simp [hl])]
  · intro hl hg
    rw [analyzeWebsite_result_def, if_pos hnr, if_neg (by simp [hl]),
      if_pos (by simp [hg])]
  · intro hl hg
    rw [analyzeWebsite_result_def, if_pos hnr, if_neg (by simp [hl]),
      if_neg (by simp [hg])]

/-- C1 witness: concrete failed fetch with a failing browser launch — the
browser is launched and the rejection escapes. -/
theorem claim1_witness :
    (analyzeWebsite launchFailEnv true "https://example.com").browserLaunched = true ∧
    (analyzeWebsite launchFailEnv true "https://example.com").result =
      .error .browserLaunchFailed :=
  ⟨(claim1_fetch_failure_launches_browser launchFailEnv true "https://example.com" rfl).1,
   (claim1_fetch_failure_launches_browser launchFailEnv true "https://example.com" rfl).2.1 rfl⟩

/-- A fetched page shorter than 1000 characters. -/
def tinyPage : String := "<html><body>tiny</body></html>"

/-- Environment: the primary fetch succeeds with a short body and the
headless browser fails to launch. -/
def shortFetchEnv : Env :=
  { renderEnv with primaryFetch := okFetch tinyPage, browserLaunchOk := false }

/-- C2 counterexample: the primary fetch succeeds, the rendering engine
fails to launch, and the exception escapes `analyzeWebsite` (the call
rejects) — contradicting "the overall call still resolves successfully". -/
theorem claim2_counterexample :
    safeFetch shortFetchEnv.primaryFetch = some tinyPage ∧
    (analyzeWebsite shortFetchEnv true "https://example.com").result =
      .error .browserLaunchFailed := by
  exact ⟨rfl, rfl⟩

/-- Composition succeeds whenever the metascraper call resolves and the
normalized URL is parseable (the only two throw sites of `buildReport`). -/
theorem buildReport_resolves (env : Env) (opts : Bool) (n h : String)
    (hs : env.scrapeThrows = false) (u : UrlParts) (hu : urlParse n = some u) :
    ∃ r, buildReport env opts n h = .ok r := by
  unfold buildReport
  rw [if_neg (by simp [hs]), hu]
  exact ⟨_, rfl⟩

/-- C2 (amended): the report composed by `analyzeWebsite` has no
`accessibility` field and no `colors` field at all.  When the primary fetch
succeeds with a body of at least 1000 characters the rendering engine is
never launched — and, provided the metascraper call does not itself throw
and the normalized URL is parseable, the call resolves with a report; when
the fetched body is shorter than 1000 characters and the browser fails to
launch, the exception escapes (`analyzeWebsite` rejects instead of
resolving). -/
theorem claim2_render_failure_behavior (env : Env) (opts : Bool) (url b : String)
    (h : safeFetch env.primaryFetch = some b) :
    ("accessibility" ∉ reportFieldNames ∧ "colors" ∉ reportFieldNames) ∧
    (1000 ≤ b.length → (analyzeWebsite env opts url).browserLaunched = false) ∧
    (1000 ≤ b.length → env.scrapeThrows = false →
      ∀ u, urlParse (normalizeUrl url) = some u →
        resultOk (analyzeWebsite env opts url) = true) ∧
    (b.length < 1000 → env.browserLaunchOk = false →
      (analyzeWebsite env opts url).browserLaunched = true ∧
      (analyzeWebsite env opts url).result = .error .browserLaunchFailed) := by
  refine ⟨⟨by decide, by decide⟩, ?_, ?_, ?_⟩
  · intro hlen
    rw [analyzeWebsite_browserLaunched, h]
    simp [needsRender]
    omega
  · intro hlen hs u hu
    have hnr : needsRender (safeFetch env.primaryFetch) = false := by
      rw [h]
      simp [needsRender]
      omega
    obtain ⟨r, hr⟩ := buildReport_resolves env opts (normalizeUrl url)
      ((safeFetch env.primaryFetch).getD "") hs u hu
    unfold resultOk
    rw [analyzeWebsite_result_def, if_neg (by simp [hnr]), hr]
  · intro hlen hl
    have hnr : needsRender (safeFetch env.primaryFetch) = true := by
      rw [h]; simp [needsRender, hlen]
    constructor
    · rw [analyzeWebsite_browserLaunched, hnr]
    · rw [analyzeWebsite_result_def, if_pos hnr, if_pos (by simp [hl])]

/-- A successfully fetched page of 1200 characters (at least 1000). -/
def longPage : String := String.mk (List.replicate 1200 'a')

/-- Environment: the primary fetch succeeds with the long body. -/
def longFetchEnv : Env := { renderEnv with primaryFetch := okFetch longPage }

set_option maxRecDepth 40000 in
/-- C2 witness: a concrete short successful fetch with a failing launch
rejects, and a concrete long successful fetch never launches the browser
and resolves. -/
theorem claim2_witness :
    ((analyzeWebsite shortFetchEnv true "https://example.com").browserLaunched = true ∧
      (analyzeWebsite shortFetchEnv true "https://example.com").result =
        .error .browserLaunchFailed) ∧
    (analyzeWebsite longFetchEnv true "https://example.com").browserLaunched = false ∧
    resultOk (analyzeWebsite longFetchEnv true "https://example.com") = true :=
  ⟨(claim2_render_failure_behavior shortFetchEnv true "https://example.com" tinyPage
      rfl).2.2.2 (by decide) rfl,
   (claim2_render_failure_behavior longFetchEnv true "https://example.com" longPage
      rfl).2.1 (by decide),
   (claim2_render_failure_behavior longFetchEnv true "https://example.com" longPage
      rfl).2.2.1 (by decide) rfl ⟨"https", "example.com", "/"⟩ rfl⟩

/-- Shared helper: the concrete `renderEnv` run resolves with the
transcribed literal report. -/
theorem renderEnv_result :
    (analyzeWebsite renderEnv true "https://example.com").result = .ok renderReport := rfl

/-- C4 counterexample: the performance auditor cannot run (no launchable
chrome), the call resolves, and the report's `performance` field is `null` —
not the zero-valued object `{ performanceScore: 0, lcp: 0, cls: 0, tbt: 0 }`
the claim requires. -/
theorem claim4_counterexample :
    renderEnv.chromeLaunchOk = false ∧
    resultPerformance (analyzeWebsite renderEnv true "https://example.com") = some none :=
  ⟨rfl, rfl⟩

/-- C4 (amended): when the performance auditor cannot run (chrome cannot be
launched, or the lighthouse call fails), the report's `performance` field is
`null`; and the performance branch is fully isolated — changing its outcome
changes at most the `performance` field and never any other field, the
failure behavior, or the browser launch. -/
theorem claim4_performance_null_and_isolated (env : Env) (opts : Bool) (url : String)
    (c : Bool) (l : Option Lhr) :
    (∀ r, (analyzeWebsite env opts url).result = .ok r →
      r.performance =
        (if opts then runLighthouseModel env.chromeLaunchOk env.lighthouseRun else none)) ∧
    runLighthouseModel false l = none ∧
    runLighthouseModel true none = none ∧
    Except.map stripPerformance
        (analyzeWebsite { env with chromeLaunchOk := c, lighthouseRun := l } opts url).result =
      Except.map stripPerformance (analyzeWebsite env opts url).result ∧
    (analyzeWebsite { env with chromeLaunchOk := c, lighthouseRun := l } opts url).browserLaunched =
      (analyzeWebsite env opts url).browserLaunched := by
  refine ⟨?_, rfl, rfl, (analyzeWebsite_perf_independent env c l opts url).1,
    (analyzeWebsite_perf_independent env c l opts url).2⟩
  intro r hr
  rw [analyzeWebsite_result_def] at hr
  split_ifs at hr <;>
    first
      | exact Except.noConfusion hr
      | exact (buildReport_ok_fields _ _ _ _ _ hr).2.2.2.1

/-- C4 witness: the concrete resolved run with an unavailable performance
auditor has the `null` performance value dictated by the amended claim. -/
theorem claim4_witness :
    renderReport.performance =
      (if true then runLighthouseModel renderEnv.chromeLaunchOk renderEnv.lighthouseRun
       else none) :=
  (claim4_performance_null_and_isolated renderEnv true "https://example.com" false none).1
    renderReport renderEnv_result

/-- A conventional sitemap document served at `/sitemap.xml`. -/
def conventionalSitemapXml : String :=
  "<urlset><url><loc>https://example.com/</loc></url></urlset>"

/-- Environment: robots.txt carries a `Sitemap:` directive pointing at a
custom sitemap, while the conventional `/sitemap.xml` probe also succeeds. -/
def robotsDirectiveEnv : Env :=
  { renderEnv with
    robotsFetch :=
      okFetch "User-agent: *\nSitemap: https://example.com/custom-sitemap.xml\n"
    sitemapFetch := okFetch conventionalSitemapXml }

/-- C5 counterexample: robots.txt contains
`Sitemap: https://example.com/custom-sitemap.xml`, yet the report's
`siteSignals.sitemapUrl` is the conventional probe URL
`https://example.com/sitemap.xml`, not the directive's URL — the directive
is never consulted. -/
theorem claim5_counterexample :
    strContains robotsDirectiveEnv.robotsFetch.body
      "Sitemap: https://example.com/custom-sitemap.xml" = true ∧
    resultSitemapUrl (analyzeWebsite robotsDirectiveEnv true "https://example.com") =
      some (some "https://example.com/sitemap.xml") := by
  exact ⟨rfl, rfl⟩

/-- C5 (amended): `sitemapUrl` is resolved solely by probing
`origin + "/sitemap.xml"` and then `origin + "/sitemap_index.xml"`; the
resolved value is always `null` or one of those two conventional URLs, and
the robots.txt fetch outcome (hence any `Sitemap:` directive inside it) has
no influence on it. -/
theorem claim5_sitemap_resolution (env : Env) (f : FetchSpec) (opts : Bool) (url : String) :
    resultSitemapUrl (analyzeWebsite { env with robotsFetch := f } opts url) =
      resultSitemapUrl (analyzeWebsite env opts url) ∧
    ∀ r, (analyzeWebsite env opts url).result = .ok r →
      r.siteSignals.sitemapUrl = none ∨
      ∃ up, urlParse (normalizeUrl url) = some up ∧
        (r.siteSignals.sitemapUrl = some (up.origin ++ "/sitemap.xml") ∨
         r.siteSignals.sitemapUrl = some (up.origin ++ "/sitemap_index.xml")) := by
  refine ⟨analyzeWebsite_sitemap_ignores_robots env f opts url, ?_⟩
  intro r hr
  rw [analyzeWebsite_result_def] at hr
  split_ifs at hr <;>
    first
      | exact Except.noConfusion hr
      | (rw [(buildReport_ok_fields _ _ _ _ _ hr).2.2.2.2]
         exact fetchSitemapInfo_conventional _ _ _ _ _)

/-- C5 witness: the amended claim applied to the concrete resolved run,
whose sitemap probes all fail, yields the `null` resolution. -/
theorem claim5_witness : renderReport.siteSignals.sitemapUrl = none := by
  rcases (claim5_sitemap_resolution renderEnv failFetch true "https://example.com").2
      renderReport renderEnv_result with h | ⟨up, hup, h2 | h2⟩
  · exact h
  · rw [(rfl : urlParse (normalizeUrl "https://example.com") =
      some ⟨"https", "example.com", "/"⟩)] at hup
    cases hup
    exact absurd h2 (by decide)
  · rw [(rfl : urlParse (normalizeUrl "https://example.com") =
      some ⟨"https", "example.com", "/"⟩)] at hup
    cases hup
    exact absurd h2 (by decide)

/-- A page whose body holds 16 distinct non-stopword words of ≥ 4 letters. -/
def sixteenWordsPage : String :=
  "<html><body>alpha bravo charlie delta echoes foxtrot golfs hotel india juliet kilos lima mike november oscar papa</body></html>"

/-- Environment rendering `sixteenWordsPage`. -/
def manyWordsEnv : Env := { renderEnv with renderedHtml := sixteenWordsPage }

set_option maxRecDepth 40000 in
/-- C6 counterexample: a resolved report whose keyword list has 16 entries —
more than the 15 the claim allows (the pipeline's cap is 20, not 15). -/
theorem claim6_counterexample :
    resultKeywordCount (analyzeWebsite manyWordsEnv true "https://example.com") =
      some 16 := rfl

/-- C6 (amended): `extractKeywordsFromHtml` returns at most `limit` keyword
strings, ranked by non-increasing frequency (the ranking is the stable
descending sort of the frequency table), and the pipeline's keyword list is
capped at 20 (the literal limit passed at analyze.mjs line 182), not 15. -/
theorem claim6_keyword_limit_and_ranking (html : String) (limit : Nat) (env : Env)
    (opts : Bool) (url : String) :
    (extractKeywordsFromHtml html limit).length ≤ limit ∧
    extractKeywordsFromHtml html limit =
      ((keywordRanking (textOfAll "body" (parseHtml false html))).take limit).map
        (fun e => e.1) ∧
    List.Pairwise (fun a b => b.2 ≤ a.2)
      ((keywordRanking (textOfAll "body" (parseHtml false html))).take limit) ∧
    ∀ r, (analyzeWebsite env opts url).result = .ok r →
      r.content.keywords.length ≤ 20 := by
  refine ⟨extractKeywordsFromText_length_le _ _, rfl, ?_, ?_⟩
  · exact List.Pairwise.sublist (List.take_sublist _ _) (keywordRanking_sorted _)
  · intro r hr
    rw [analyzeWebsite_result_def] at hr
    split_ifs at hr <;>
      first
        | exact Except.noConfusion hr
        | (rw [(buildReport_ok_fields _ _ _ _ _ hr).2.2.1]
           exact extractKeywordsFromText_length_le _ _)

/-- C6 witness: the concrete resolved run obeys the 20-entry cap. -/
theorem claim6_witness : renderReport.content.keywords.length ≤ 20 :=
  (claim6_keyword_limit_and_ranking "" 0 renderEnv true "https://example.com").2.2.2
    renderReport renderEnv_result

/-- C7 counterexample: on a page whose body text is `"Buy now! Buy now!"`,
frequency-based extraction with limit 5 does not place a token equivalent to
`"buy"` or `"now"` at the head of the result. -/
theorem claim7_counterexample :
    (extractKeywordsFromHtml "<html><body>Buy now! Buy now!</body></html>" 5).head? ≠
      some "buy" ∧
    (extractKeywordsFromHtml "<html><body>Buy now! Buy now!</body></html>" 5).head? ≠
      some "now" := by
  exact ⟨by decide, by decide⟩

/-- C7 (amended): on that page the extraction returns the empty list: the
token pattern `/\b[a-z]{4,}\b/` accepts only words of at least 4 letters, so
the case-folded 3-letter tokens `"buy"` and `"now"` are excluded before any
counting happens. -/
theorem claim7_short_tokens_excluded :
    extractKeywordsFromHtml "<html><body>Buy now! Buy now!</body></html>" 5 = [] ∧
    regexWordMatches (toLowerStr "Buy now! Buy now!") = [] := by
  exact ⟨by decide, by decide⟩

/-- The `renderEnv` scenario observed at a later clock. -/
def renderEnvLater : Env := { renderEnv with now := "2026-01-02T00:00:00.000Z" }

/-- Shared helper: the later run resolves with the same report except for
its timestamp. -/
theorem renderEnvLater_result :
    (analyzeWebsite renderEnvLater true "https://example.com").result =
      .ok (renderReportAt "2026-01-02T00:00:00.000Z") := rfl

/-- C9: static HTML extraction is deterministic and idempotent — any two
resolved analysis runs over byte-identical effective HTML (regardless of
clock, secondary probe outcomes, options or URL) produce byte-identical
`htmlMetrics`. -/
theorem claim9_static_extraction_deterministic (env1 env2 : Env) (o1 o2 : Bool)
    (u1 u2 : String) (r1 r2 : Report)
    (h1 : (analyzeWebsite env1 o1 u1).result = .ok r1)
    (h2 : (analyzeWebsite env2 o2 u2).result = .ok r2)
    (hhtml : effectiveHtml env1 = effectiveHtml env2) :
    r1.htmlMetrics = r2.htmlMetrics := by
  obtain ⟨a, ha, hma⟩ := analyzeWebsite_ok_metrics _ _ _ _ h1
  obtain ⟨b, hb, hmb⟩ := analyzeWebsite_ok_metrics _ _ _ _ h2
  rw [ha, hb] at hhtml
  rw [hma, hmb, Option.some.inj hhtml]

/-- C9 witness: two runs a day apart over the same rendered page have
byte-identical `htmlMetrics` (while their `analyzedAt` fields differ). -/
theorem claim9_witness :
    renderReport.htmlMetrics = (renderReportAt "2026-01-02T00:00:00.000Z").htmlMetrics :=
  claim9_static_extraction_deterministic renderEnv renderEnvLater true true
    "https://example.com" "https://example.com" _ _ renderEnv_result
    renderEnvLater_result rfl

/-- C10: the wrapper `safeAnalyzeWebsite` never rejects: whenever the
underlying analysis throws or resolves with an empty value it returns the
fully-shaped default-filled report object — with `htmlMetrics`, `metadata`,
`keywords`, `accessibility { violations: 0, details: [] }`,
`performance { performanceScore: 0 }` and `analyzedAt` — carrying the error
message string, rather than a bare error object or a thrown exception
(totality of the return type models the absence of rejection). -/
theorem claim10_safeAnalyze_never_rejects (now url : String)
    (run : String → Except String (Option Report)) :
    (∀ e, run (normalizeUrl url) = .error e →
      safeAnalyzeWebsite now url run = .fallback (fallbackReport url now e)) ∧
    (run (normalizeUrl url) = .ok none →
      safeAnalyzeWebsite now url run =
        .fallback (fallbackReport url now "Empty analysis result")) ∧
    (∀ r, run (normalizeUrl url) = .ok (some r) →
      safeAnalyzeWebsite now url run = .report r) ∧
    ∀ msg, (fallbackReport url now msg).accessibility = ⟨0, []⟩ ∧
      (fallbackReport url now msg).performance = ⟨0⟩ ∧
      (fallbackReport url now msg).keywords = [] ∧
      (fallbackReport url now msg).htmlMetrics = ⟨"Analysis Failed", "", none, 0⟩ ∧
      (fallbackReport url now msg).metadata = ⟨"Analysis Failed", ""⟩ ∧
      (fallbackReport url now msg).analyzedAt = now ∧
      (fallbackReport url now msg).error = msg := by
  refine ⟨?_, ?_, ?_, ?_⟩
  · intro e he
    unfold safeAnalyzeWebsite
    rw [he]
  · intro he
    unfold safeAnalyzeWebsite
    rw [he]
  · intro r hr
    unfold safeAnalyzeWebsite
    rw [hr]
  · intro msg
    exact ⟨rfl, rfl, rfl, rfl, rfl, rfl, rfl⟩

/-- C10 witness: the wrapper applied to the concrete failing run (failed
fetch, browser launch failure) returns the default-filled fallback with the
embedded error message. -/
theorem claim10_witness :
    safeAnalyzeWebsite "2026-01-01T00:00:00.000Z" "example.com"
        (runAnalyze launchFailEnv true) =
      .fallback (fallbackReport "example.com" "2026-01-01T00:00:00.000Z"
        "Failed to launch the browser process") :=
  (claim10_safeAnalyze_never_rejects "2026-01-01T00:00:00.000Z" "example.com"
    (runAnalyze launchFailEnv true)).1 "Failed to launch the browser process" rfl
